import Mathlib

/-!
Verification of the dot-simulation engine: a fixed-capacity structure-of-arrays
buffer of moving dots with boundary-reflecting motion, per-dot position trails,
viewport-visibility masking, compacted render-data extraction, and the store
actions driving them.

Modelling conventions: the JavaScript numeric values (doubles and the cells of
Float32Array / Uint8Array) are modelled as exact rationals; a typed array is a
total function from slot index to value (out-of-range behaviour is exercised by
no claim); writing a rational into a Uint8Array cell goes through jsToUint8
(truncation toward zero followed by reduction modulo 256, the ToUint8
conversion). List-building loops are embedded through collectLoop, whose value
after n iterations is the list built by the first n loop bodies.
-/

/-- A rectangle of longitude/latitude limits (also used for the world bounds). -/
structure ViewportBounds where
  minLng : ℚ
  maxLng : ℚ
  minLat : ℚ
  maxLat : ℚ
deriving DecidableEq

/-- One moving dot: position, per-tick velocity, RGB colour, render size and
the list of past positions. -/
structure MovingDot where
  id : String
  position : ℚ × ℚ
  velocity : ℚ × ℚ
  color : ℚ × ℚ × ℚ
  size : ℚ
  trail : List (ℚ × ℚ)
deriving DecidableEq

/-- The test configuration record of the high-performance store. -/
structure TestConfig where
  dotCount : ℕ
  maxSpeed : ℚ
  updateInterval : ℚ
  enableTrails : Bool
  trailLength : ℕ
  dotSizeMin : ℚ
  dotSizeMax : ℚ
  enableViewportCulling : Bool
  cullingBuffer : ℚ
  enableAdaptivePerformance : Bool
  highPerformanceThreshold : ℕ
deriving DecidableEq

/-- The binary dot store: layout [lng, lat, vx, vy, r, g, b, size] per dot in
`data` (8 fields per dot), [lng, lat] per trail point in `trailData`
(maxTrailLength pairs per dot), one byte per dot in `visibilityMask`. -/
structure DotDataBuffer where
  maxDots : ℕ
  maxTrailLength : ℕ
  data : ℕ → ℚ
  trailData : ℕ → ℚ
  visibilityMask : ℕ → ℕ
  count : ℕ

/-- The constructor: zero-filled arrays, count 0. -/
def DotDataBuffer.alloc (maxDots : ℕ) (maxTrailLength : ℕ) : DotDataBuffer :=
  { maxDots := maxDots
    maxTrailLength := maxTrailLength
    data := fun _ => 0
    trailData := fun _ => 0
    visibilityMask := fun _ => 0
    count := 0 }

/-- Write the values `vals` into consecutive slots starting at `offset`,
leaving every other slot of `f` unchanged. -/
def writeFields (f : ℕ → ℚ) (offset : ℕ) (vals : List ℚ) : ℕ → ℚ :=
  fun j => if offset ≤ j ∧ j < offset + vals.length then vals.getD (j - offset) 0 else f j

/-- The value of a list-building `for i in 0..n-1` loop after `n` iterations:
iteration `i` appends `g i` when `p i` holds. -/
def collectLoop (p : ℕ → Bool) (g : ℕ → List α) : ℕ → List α
  | 0 => []
  | n + 1 => collectLoop p g n ++ (if p n then g n else [])

/-- The first (counting) pass of the visible-extraction methods and the
counter of updateVisibilityMask: how many of the first `n` indices satisfy
`p`. -/
def countLoop (p : ℕ → Bool) : ℕ → ℕ
  | 0 => 0
  | n + 1 => countLoop p n + (if p n then 1 else 0)

/-- Truncation toward zero, as the ToUint8 conversion starts with. -/
def jsTrunc (q : ℚ) : ℤ :=
  if 0 ≤ q then ⌊q⌋ else ⌈q⌉

/-- Storing a number into a Uint8Array cell: truncate toward zero, reduce
modulo 256. -/
def jsToUint8 (q : ℚ) : ℕ :=
  (jsTrunc q % 256).toNat

/-- getDot: rebuild the dot stored at row `index`; a trail slot equal to
(0, 0) is skipped as empty padding. -/
def DotDataBuffer.getDot (b : DotDataBuffer) (index : ℕ) : MovingDot :=
  let offset := index * 8
  let trailOffset := index * b.maxTrailLength * 2
  { id := toString index
    position := (b.data offset, b.data (offset + 1))
    velocity := (b.data (offset + 2), b.data (offset + 3))
    color := (b.data (offset + 4), b.data (offset + 5), b.data (offset + 6))
    size := b.data (offset + 7)
    trail :=
      collectLoop
        (fun i => b.trailData (trailOffset + i * 2) != 0 ||
          b.trailData (trailOffset + i * 2 + 1) != 0)
        (fun i => [(b.trailData (trailOffset + i * 2), b.trailData (trailOffset + i * 2 + 1))])
        b.maxTrailLength }

/-- setDot: write all fields of `dot` into row `index`; trail slots beyond the
dot's trail length are zero-padded. -/
def DotDataBuffer.setDot (b : DotDataBuffer) (index : ℕ) (dot : MovingDot) : DotDataBuffer :=
  let offset := index * 8
  let trailOffset := index * b.maxTrailLength * 2
  { b with
    data := writeFields b.data offset
      [dot.position.1, dot.position.2, dot.velocity.1, dot.velocity.2,
        dot.color.1, dot.color.2.1, dot.color.2.2, dot.size]
    trailData := fun j =>
      if trailOffset ≤ j ∧ j < trailOffset + b.maxTrailLength * 2 then
        if (j - trailOffset) / 2 < dot.trail.length then
          if (j - trailOffset) % 2 = 0 then (dot.trail.getD ((j - trailOffset) / 2) (0, 0)).1
          else (dot.trail.getD ((j - trailOffset) / 2) (0, 0)).2
        else 0
      else b.trailData j }

/-- updateDotPosition on the buffer: advance row `index` by its velocity,
bounce off the given bounds (per-axis velocity negation plus clamping), then
shift the trail one pair toward the tail (the descending shift loop copies
each pair from the slot before it, so the pair in the last slot is discarded)
and write the new position into the head pair. The maxSpeed argument is
accepted and never read, exactly as in the source. -/
def DotDataBuffer.updateDotPosition (b : DotDataBuffer) (index : ℕ)
    (bounds : ViewportBounds) (maxSpeed : ℚ) : DotDataBuffer :=
  let offset := index * 8
  let trailOffset := index * b.maxTrailLength * 2
  let lng0 := b.data offset + b.data (offset + 2)
  let lat0 := b.data (offset + 1) + b.data (offset + 3)
  let vx := if lng0 ≤ bounds.minLng ∨ bounds.maxLng ≤ lng0 then
      -(b.data (offset + 2)) else b.data (offset + 2)
  let lng := if lng0 ≤ bounds.minLng ∨ bounds.maxLng ≤ lng0 then
      max bounds.minLng (min bounds.maxLng lng0) else lng0
  let vy := if lat0 ≤ bounds.minLat ∨ bounds.maxLat ≤ lat0 then
      -(b.data (offset + 3)) else b.data (offset + 3)
  let lat := if lat0 ≤ bounds.minLat ∨ bounds.maxLat ≤ lat0 then
      max bounds.minLat (min bounds.maxLat lat0) else lat0
  { b with
    data := writeFields b.data offset [lng, lat, vx, vy]
    trailData := fun j =>
      if j = trailOffset then lng
      else if j = trailOffset + 1 then lat
      else if trailOffset ≤ j ∧ j < trailOffset + b.maxTrailLength * 2 then b.trailData (j - 2)
      else b.trailData j }

/-- The inclusion test of updateVisibilityMask for row `i` against the
margin-expanded rectangle. -/
def DotDataBuffer.rowInRect (b : DotDataBuffer) (minLng maxLng minLat maxLat : ℚ)
    (i : ℕ) : Bool :=
  decide (minLng ≤ b.data (i * 8) ∧ b.data (i * 8) ≤ maxLng ∧
    minLat ≤ b.data (i * 8 + 1) ∧ b.data (i * 8 + 1) ≤ maxLat)

/-- updateVisibilityMask: expand the viewport by the margin, write 1/0 into
the mask of every active row, return the updated buffer together with the
count of visible rows. -/
def DotDataBuffer.updateVisibilityMask (b : DotDataBuffer) (viewportBounds : ViewportBounds)
    (buffer : ℚ) : DotDataBuffer × ℕ :=
  let minLng := viewportBounds.minLng - buffer
  let maxLng := viewportBounds.maxLng + buffer
  let minLat := viewportBounds.minLat - buffer
  let maxLat := viewportBounds.maxLat + buffer
  ({ b with
      visibilityMask := fun i =>
        if i < b.count then (if b.rowInRect minLng maxLng minLat maxLat i then 1 else 0)
        else b.visibilityMask i },
    countLoop (b.rowInRect minLng maxLng minLat maxLat) b.count)

/-- getPositions: [lng, lat, 0] per active row, in row order. -/
def DotDataBuffer.getPositions (b : DotDataBuffer) : List ℚ :=
  collectLoop (fun _ => true) (fun i => [b.data (i * 8), b.data (i * 8 + 1), 0]) b.count

/-- getColors: [r, g, b, 255] per active row (Uint8Array cells). -/
def DotDataBuffer.getColors (b : DotDataBuffer) : List ℕ :=
  collectLoop (fun _ => true)
    (fun i => [jsToUint8 (b.data (i * 8 + 4)), jsToUint8 (b.data (i * 8 + 5)),
      jsToUint8 (b.data (i * 8 + 6)), 255]) b.count

/-- getSizes: one size scalar per active row. -/
def DotDataBuffer.getSizes (b : DotDataBuffer) : List ℚ :=
  collectLoop (fun _ => true) (fun i => [b.data (i * 8 + 7)]) b.count

/-- getVisiblePositions: [lng, lat, 0] for each active row whose mask byte is
truthy, preserving row order. -/
def DotDataBuffer.getVisiblePositions (b : DotDataBuffer) : List ℚ :=
  collectLoop (fun i => b.visibilityMask i != 0)
    (fun i => [b.data (i * 8), b.data (i * 8 + 1), 0]) b.count

/-- getVisibleColors: [r, g, b, 255] for each visible active row. -/
def DotDataBuffer.getVisibleColors (b : DotDataBuffer) : List ℕ :=
  collectLoop (fun i => b.visibilityMask i != 0)
    (fun i => [jsToUint8 (b.data (i * 8 + 4)), jsToUint8 (b.data (i * 8 + 5)),
      jsToUint8 (b.data (i * 8 + 6)), 255]) b.count

/-- getVisibleSizes: the size of each visible active row. -/
def DotDataBuffer.getVisibleSizes (b : DotDataBuffer) : List ℚ :=
  collectLoop (fun i => b.visibilityMask i != 0) (fun i => [b.data (i * 8 + 7)]) b.count

/-- The indices of the active rows whose mask byte is truthy (specification
side of the compaction claims). -/
def visibleIndices (b : DotDataBuffer) : List ℕ :=
  (List.range b.count).filter (fun i => b.visibilityMask i != 0)

/-- The number of set mask bits among the active rows. -/
def visibleSetBits (b : DotDataBuffer) : ℕ :=
  (visibleIndices b).length

/-- Every active row stores colour channels that are integers in 0..255 (the
data model's colour range). -/
def validColors (b : DotDataBuffer) : Prop :=
  ∀ i < b.count, ∃ r g bl : ℕ, r ≤ 255 ∧ g ≤ 255 ∧ bl ≤ 255 ∧
    b.data (i * 8 + 4) = r ∧ b.data (i * 8 + 5) = g ∧ b.data (i * 8 + 6) = bl

/-- JavaScript slice(-k) on an array: the last k elements, the whole array
when k is 0 (slice(-0) is slice(0)) or when k exceeds the length. -/
def sliceLast (l : List α) (k : ℕ) : List α :=
  if k = 0 then l else l.drop (l.length - k)

/-- The per-object updateDotPosition of the store: advance, bounce off the
bounds per axis, then extend the trail with the new position keeping the last
trailLength entries (or reset it to the single new position when trails are
disabled). -/
def updateDotPosition (dot : MovingDot) (bounds : ViewportBounds) (config : TestConfig) :
    MovingDot :=
  let lng0 := dot.position.1 + dot.velocity.1
  let lat0 := dot.position.2 + dot.velocity.2
  let vx := if lng0 ≤ bounds.minLng ∨ bounds.maxLng ≤ lng0 then -dot.velocity.1 else dot.velocity.1
  let lng := if lng0 ≤ bounds.minLng ∨ bounds.maxLng ≤ lng0 then
      max bounds.minLng (min bounds.maxLng lng0) else lng0
  let vy := if lat0 ≤ bounds.minLat ∨ bounds.maxLat ≤ lat0 then -dot.velocity.2 else dot.velocity.2
  let lat := if lat0 ≤ bounds.minLat ∨ bounds.maxLat ≤ lat0 then
      max bounds.minLat (min bounds.maxLat lat0) else lat0
  let newPosition : ℚ × ℚ := (lng, lat)
  { dot with
    position := newPosition
    velocity := (vx, vy)
    trail := if config.enableTrails then sliceLast (dot.trail ++ [newPosition]) config.trailLength
      else [newPosition] }

/-- `t` simulation ticks applied to one dot (the per-entity part of the
updateDots action, iterated). -/
def iterTicks (bounds : ViewportBounds) (config : TestConfig) : ℕ → MovingDot → MovingDot
  | 0, d => d
  | t + 1, d => updateDotPosition (iterTicks bounds config t d) bounds config

/-- The epsilon test of the legacy culling helper: bounds changed when forced,
when no previous bounds exist, or when some edge moved by more than 0.001
degree. -/
def boundsChangedCheck (vb : ViewportBounds) (last : Option ViewportBounds)
    (forceUpdate : Bool) : Bool :=
  forceUpdate ||
    match last with
    | none => true
    | some l =>
        decide (1/1000 < |vb.minLng - l.minLng|) || decide (1/1000 < |vb.maxLng - l.maxLng|) ||
        decide (1/1000 < |vb.minLat - l.minLat|) || decide (1/1000 < |vb.maxLat - l.maxLat|)

/-- The legacy updateViewportCulling helper: returns the visible dots and
whether the caller should commit them. Passthrough when culling is disabled,
no-op when the bounds did not change meaningfully, passthrough below the
500-dot threshold, and a linear filter against the margin-expanded viewport
otherwise. -/
def updateViewportCullingFn (dots : List MovingDot) (viewportBounds : ViewportBounds)
    (lastViewportBounds : Option ViewportBounds) (config : TestConfig)
    (forceUpdate : Bool) : List MovingDot × Bool :=
  if !config.enableViewportCulling then (dots, false)
  else if !boundsChangedCheck viewportBounds lastViewportBounds forceUpdate then ([], false)
  else if dots.length < 500 then (dots, true)
  else
    let minLng := viewportBounds.minLng - config.cullingBuffer
    let maxLng := viewportBounds.maxLng + config.cullingBuffer
    let minLat := viewportBounds.minLat - config.cullingBuffer
    let maxLat := viewportBounds.maxLat + config.cullingBuffer
    (dots.filter (fun d => decide (minLng ≤ d.position.1 ∧ d.position.1 ≤ maxLng ∧
      minLat ≤ d.position.2 ∧ d.position.2 ≤ maxLat)), true)

/-- The store state of the high-performance store (render-timing metrics and
cached render arrays carry no claim and are omitted). -/
structure StoreState where
  dots : List MovingDot
  visibleDots : List MovingDot
  dotBuffer : Option DotDataBuffer
  useHighPerformanceMode : Bool
  isRunning : Bool
  config : TestConfig
  bounds : ViewportBounds
  lastViewportBounds : Option ViewportBounds
  totalDots : ℕ
  visibleDotsCount : ℕ

/-- The generation loop of generateDotsToBuffer after `n` iterations:
iteration `i` writes the `i`-th generated dot into row `i`. The generator
`gen` stands for the stream of random dots. -/
def setDotsLoop (gen : ℕ → MovingDot) (b : DotDataBuffer) : ℕ → DotDataBuffer
  | 0 => b
  | n + 1 => (setDotsLoop gen b n).setDot n (gen n)

/-- generateDotsToBuffer: assign count, then write `count` generated dots. -/
def generateDotsToBuffer (gen : ℕ → MovingDot) (count : ℕ) (b : DotDataBuffer) :
    DotDataBuffer :=
  setDotsLoop gen { b with count := count } count

/-- The legacy generateDots action: build `count` dots and publish them as
both the population and the visible set. -/
def generateDotsAction (gen : ℕ → MovingDot) (count : ℕ) (s : StoreState) : StoreState :=
  let newDots := (List.range count).map gen
  { s with
    dots := newDots
    totalDots := newDots.length
    visibleDots := newDots
    visibleDotsCount := newDots.length }

/-- The startTest action: choose high-performance mode from the adaptive flag
and the threshold, mark the store running, allocate a buffer in
high-performance mode (trail ring of length trailLength, or 1 when trails are
disabled), then generate the population through the matching path. -/
def startTest (gen : ℕ → MovingDot) (s : StoreState) : StoreState :=
  let useHighPerf := s.config.enableAdaptivePerformance &&
    decide (s.config.highPerformanceThreshold ≤ s.config.dotCount)
  let s1 := { s with
    isRunning := true
    useHighPerformanceMode := useHighPerf
    dotBuffer := if useHighPerf then
        some (DotDataBuffer.alloc s.config.dotCount
          (if s.config.enableTrails then s.config.trailLength else 1))
      else none }
  if useHighPerf then
    match s1.dotBuffer with
    | some buf =>
        let buf2 := generateDotsToBuffer gen s1.config.dotCount buf
        { s1 with dotBuffer := some buf2, totalDots := buf2.count, visibleDotsCount := buf2.count }
    | none => s1
  else
    generateDotsAction gen s1.config.dotCount s1

/-- The store's updateViewportCulling action: in high-performance mode with a
buffer, recompute the mask unconditionally and record the new bounds;
otherwise run the legacy helper and commit its result only when it says so. -/
def storeUpdateViewportCulling (s : StoreState) (viewportBounds : ViewportBounds) :
    StoreState :=
  match s.useHighPerformanceMode, s.dotBuffer with
  | true, some buf =>
      let r := buf.updateVisibilityMask viewportBounds s.config.cullingBuffer
      { s with
        dotBuffer := some r.1
        visibleDotsCount := r.2
        lastViewportBounds := some viewportBounds }
  | _, _ =>
      let r := updateViewportCullingFn s.dots viewportBounds s.lastViewportBounds s.config false
      if r.2 then
        { s with
          visibleDots := r.1
          visibleDotsCount := r.1.length
          lastViewportBounds := some viewportBounds }
      else s

/-- getBinaryData: in high-performance mode with a buffer, the visible-only
extracts when culling is enabled and the full extracts otherwise; empty
arrays in every other state. -/
def getBinaryData (s : StoreState) : List ℚ × List ℕ × List ℚ :=
  match s.useHighPerformanceMode, s.dotBuffer with
  | true, some buf =>
      if s.config.enableViewportCulling then
        (buf.getVisiblePositions, buf.getVisibleColors, buf.getVisibleSizes)
      else (buf.getPositions, buf.getColors, buf.getSizes)
  | _, _ => ([], [], [])

/-- The default configuration of the high-performance store. -/
def cfgBase : TestConfig :=
  { dotCount := 1000, maxSpeed := 1/10000, updateInterval := 16, enableTrails := true,
    trailLength := 20, dotSizeMin := 2, dotSizeMax := 8, enableViewportCulling := true,
    cullingBuffer := 1/100, enableAdaptivePerformance := true, highPerformanceThreshold := 10000 }

/-- Scenario A entity: at (0.999, 0.5) with velocity (0.01, 0). -/
def dotA : MovingDot :=
  { id := "a", position := (999/1000, 1/2), velocity := (1/100, 0), color := (10, 20, 30),
    size := 3, trail := [(999/1000, 1/2)] }

/-- Scenario A world bound. -/
def boundsA : ViewportBounds := ⟨0, 1, 0, 1⟩

/-- A small concrete buffer used to instantiate the buffer-level claims: two
active rows whose data cells all hold 1, row 0 marked visible. -/
def bufW : DotDataBuffer :=
  { maxDots := 2, maxTrailLength := 2, data := fun _ => 1, trailData := fun _ => 0,
    visibilityMask := fun i => if i = 0 then 1 else 0, count := 2 }

/-- A concrete viewport containing the rows of `bufW`. -/
def vbW : ViewportBounds := ⟨0, 2, 0, 2⟩

/-- A concrete entity used to instantiate the round-trip claim. -/
def dotE : MovingDot :=
  { id := "e", position := (5, 6), velocity := (7, 8), color := (9, 10, 11), size := 12,
    trail := [(1, 2)] }

/-- Iterated buffer advance: `t` ticks of row `index` (the per-row body of the
high-performance updateDots loop, iterated on one row). -/
def tickBuf (bounds : ViewportBounds) (index : ℕ) (ms : ℚ) : ℕ → DotDataBuffer → DotDataBuffer
  | 0, b => b
  | t + 1, b => (tickBuf bounds index ms t b).updateDotPosition index bounds ms

/-- Scenario B entity: integer-valued coordinates, moving right one unit per
tick, trail seeded with the initial position. -/
def dotB : MovingDot :=
  { id := "b", position := (50, 50), velocity := (1, 0), color := (1, 2, 3), size := 4,
    trail := [(50, 50)] }

/-- Scenario B world bound. -/
def boundsB : ViewportBounds := ⟨0, 100, 0, 100⟩

/-- Scenario B initial buffer: capacity 1, trail ring of length 3, seeded with
`dotB` through the generation path. -/
def bufB0 : DotDataBuffer :=
  generateDotsToBuffer (fun _ => dotB) 1 (DotDataBuffer.alloc 1 3)

/-- The store's initial state under the default configuration. -/
def stateBase : StoreState :=
  { dots := [], visibleDots := [], dotBuffer := none, useHighPerformanceMode := false,
    isRunning := false, config := cfgBase, bounds := ⟨-180, 180, -85, 85⟩,
    lastViewportBounds := none, totalDots := 0, visibleDotsCount := 0 }

/-- C7 counterexample buffer: one active dot at longitude 1.0005, latitude 0,
mask clear, exactly as a mask computation at `lastC7` leaves it. -/
def bufC7 : DotDataBuffer :=
  { maxDots := 1, maxTrailLength := 1, data := fun j => if j = 0 then 2001/2000 else 0,
    trailData := fun _ => 0, visibilityMask := fun _ => 0, count := 1 }

/-- The viewport of the last mask computation in the C7 counterexample. -/
def lastC7 : ViewportBounds := ⟨0, 1, -1, 1⟩

/-- A viewport differing from `lastC7` by exactly 0.001 degree on the east
edge and by 0 elsewhere. -/
def vbC7 : ViewportBounds := ⟨0, 1001/1000, -1, 1⟩

/-- C7 counterexample store state: high-performance mode with a buffer,
culling enabled with zero margin, mask computed at `lastC7`. -/
def stateC7 : StoreState :=
  { stateBase with
    dotBuffer := some bufC7, useHighPerformanceMode := true, isRunning := true,
    config := { cfgBase with cullingBuffer := 0 },
    lastViewportBounds := some lastC7, totalDots := 1, visibleDotsCount := 0 }

/-- C8 counterexample configuration: non-positive trail length and
sizeMin > sizeMax, small population (legacy path). -/
def cfgC8 : TestConfig :=
  { cfgBase with dotCount := 5, trailLength := 0, dotSizeMin := 8, dotSizeMax := 2 }

/-- C8 counterexample store state: stopped, configured with `cfgC8`. -/
def stateC8 : StoreState :=
  { stateBase with config := cfgC8 }

/-- C9 witness configuration: adaptive performance on, population at the
high-performance threshold, culling enabled. -/
def cfgC9 : TestConfig :=
  { cfgBase with dotCount := 3, highPerformanceThreshold := 2 }

/-- C9 witness store state: stopped, configured with `cfgC9`. -/
def stateC9 : StoreState :=
  { stateBase with config := cfgC9 }

/-- The buffer startTest's high-performance path allocates and fills: ring
length trailLength when trails are enabled and 1 otherwise, populated through
generateDotsToBuffer. -/
def startBuffer (gen : ℕ → MovingDot) (s : StoreState) : DotDataBuffer :=
  generateDotsToBuffer gen s.config.dotCount
    (DotDataBuffer.alloc s.config.dotCount
      (if s.config.enableTrails then s.config.trailLength else 1))

theorem writeFields_out (f : ℕ → ℚ) (offset : ℕ) (vals : List ℚ) (j : ℕ)
    (h : j < offset ∨ offset + vals.length ≤ j) : writeFields f offset vals j = f j := by
  unfold writeFields
  rw [if_neg (by omega)]

theorem writeFields_in (f : ℕ → ℚ) (offset : ℕ) (vals : List ℚ) (k : ℕ)
    (h : k < vals.length) : writeFields f offset vals (offset + k) = vals.getD k 0 := by
  unfold writeFields
  rw [if_pos (by omega)]
  congr 1
  omega

theorem collectLoop_eq_filter (p : ℕ → Bool) (g : ℕ → List α) (n : ℕ) :
    collectLoop p g n = ((List.range n).filter p).flatMap g := by
  induction n with
  | zero => rfl
  | succ n ih =>
      rw [collectLoop, ih, List.range_succ, List.filter_append]
      cases hp : p n <;> simp [hp]

theorem collectLoop_congr (p q : ℕ → Bool) (g h : ℕ → List α) (n : ℕ)
    (hp : ∀ i < n, p i = q i) (hg : ∀ i < n, g i = h i) :
    collectLoop p g n = collectLoop q h n := by
  induction n with
  | zero => rfl
  | succ n ih =>
      rw [collectLoop, collectLoop, ih (fun i hi => hp i (by omega)) (fun i hi => hg i (by omega)),
        hp n (by omega), hg n (by omega)]

theorem collectLoop_nil (p : ℕ → Bool) (g : ℕ → List α) (n : ℕ)
    (h : ∀ i < n, p i = false) : collectLoop p g n = [] := by
  induction n with
  | zero => rfl
  | succ n ih =>
      rw [collectLoop, ih (fun i hi => h i (by omega)), h n (by omega)]
      rfl

theorem countLoop_eq_filter (p : ℕ → Bool) (n : ℕ) :
    countLoop p n = ((List.range n).filter p).length := by
  induction n with
  | zero => rfl
  | succ n ih =>
      rw [countLoop, ih, List.range_succ, List.filter_append, List.length_append]
      cases hp : p n <;> simp [hp]

theorem flatMap_const_length (l : List ℕ) (g : ℕ → List α) (k : ℕ)
    (h : ∀ i, (g i).length = k) : (l.flatMap g).length = k * l.length := by
  induction l with
  | nil => simp
  | cons a t ih =>
      simp only [List.flatMap_cons, List.length_append, List.length_cons, h, ih, Nat.mul_succ]
      omega

theorem flatMap_singleton_map (f : ℕ → α) (l : List ℕ) :
    l.flatMap (fun x => [f x]) = l.map f := by
  induction l with
  | nil => rfl
  | cons a t ih => simp [ih]

theorem map_filter_comm (f : α → β) (q : β → Bool) (l : List α) :
    (l.filter (fun x => q (f x))).map f = (l.map f).filter q := by
  induction l with
  | nil => rfl
  | cons a t ih =>
      by_cases h : q (f a) = true <;> simp [List.filter_cons, h, ih]

theorem range_map_getD_pad (l : List α) (d : α) (n : ℕ) (h : l.length ≤ n) :
    (List.range n).map (fun j => l.getD j d) = l ++ List.replicate (n - l.length) d := by
  induction l generalizing n with
  | nil =>
      simp only [List.length_nil, Nat.sub_zero, List.nil_append]
      refine List.eq_replicate_iff.2 ⟨by simp, ?_⟩
      intro b hb
      rcases List.mem_map.1 hb with ⟨j, _, rfl⟩
      simp
  | cons a t ih =>
      obtain ⟨m, rfl⟩ : ∃ m, n = m + 1 := ⟨n - 1, by simp at h; omega⟩
      rw [List.range_succ_eq_map, List.map_cons, List.map_map]
      have h2 : ((fun j => (a :: t).getD j d) ∘ Nat.succ) = fun j => t.getD j d := by
        funext j
        simp [List.getD_cons_succ]
      rw [h2, ih m (by simp at h; omega)]
      simp [List.getD_cons_zero, Nat.succ_sub_succ]

theorem filter_replicate_none (k : ℕ) (q : α → Bool) (d : α) (h : q d = false) :
    (List.replicate k d).filter q = [] := by
  induction k with
  | zero => rfl
  | succ k ih => rw [List.replicate_succ, List.filter_cons]; simp [h, ih]

theorem pair_ne_bool (pr : ℚ × ℚ) :
    ((pr.1 != 0) || (pr.2 != 0)) = decide (pr ≠ ((0 : ℚ), (0 : ℚ))) := by
  rcases pr with ⟨x, y⟩
  by_cases h1 : x = 0 <;> by_cases h2 : y = 0 <;> simp [h1, h2, Prod.ext_iff]

theorem jsToUint8_natCast (n : ℕ) (h : n ≤ 255) : jsToUint8 (n : ℚ) = n := by
  unfold jsToUint8 jsTrunc
  rw [if_pos (by exact_mod_cast Nat.cast_nonneg n), Int.floor_natCast]
  omega

/-- C10: the buffer advance operation never reads its maxSpeed argument: the
resulting buffer state is identical for any two maxSpeed values. -/
theorem updateDotPosition_maxSpeed_irrelevant (b : DotDataBuffer) (index : ℕ)
    (bounds : ViewportBounds) (ms1 ms2 : ℚ) :
    b.updateDotPosition index bounds ms1 = b.updateDotPosition index bounds ms2 := rfl

theorem reflect_axis (x v lo hi : ℚ) (h : lo < hi) :
    lo ≤ (if x + v ≤ lo ∨ hi ≤ x + v then max lo (min hi (x + v)) else x + v) ∧
    (if x + v ≤ lo ∨ hi ≤ x + v then max lo (min hi (x + v)) else x + v) ≤ hi := by
  by_cases hc : x + v ≤ lo ∨ hi ≤ x + v
  · rw [if_pos hc]
    exact ⟨le_max_left _ _, max_le h.le (min_le_left _ _)⟩
  · rw [if_neg hc]
    push_neg at hc
    exact ⟨hc.1.le, hc.2.le⟩

/-- C1: one boundary-reflection step keeps the position inside the bound on
every axis (when each axis's lower bound is below its upper bound), and the
velocity component of an axis is negated exactly when the tentatively
advanced position on that axis reaches or passes that axis's lower or upper
bound. -/
theorem reflect_position_velocity (d : MovingDot) (bounds : ViewportBounds)
    (config : TestConfig) (hx : bounds.minLng < bounds.maxLng)
    (hy : bounds.minLat < bounds.maxLat) :
    (bounds.minLng ≤ (updateDotPosition d bounds config).position.1 ∧
      (updateDotPosition d bounds config).position.1 ≤ bounds.maxLng) ∧
    (bounds.minLat ≤ (updateDotPosition d bounds config).position.2 ∧
      (updateDotPosition d bounds config).position.2 ≤ bounds.maxLat) ∧
    (updateDotPosition d bounds config).velocity.1 =
      (if d.position.1 + d.velocity.1 ≤ bounds.minLng ∨
          bounds.maxLng ≤ d.position.1 + d.velocity.1 then -d.velocity.1 else d.velocity.1) ∧
    (updateDotPosition d bounds config).velocity.2 =
      (if d.position.2 + d.velocity.2 ≤ bounds.minLat ∨
          bounds.maxLat ≤ d.position.2 + d.velocity.2 then -d.velocity.2 else d.velocity.2) := by
  exact ⟨reflect_axis d.position.1 d.velocity.1 bounds.minLng bounds.maxLng hx,
    reflect_axis d.position.2 d.velocity.2 bounds.minLat bounds.maxLat hy, rfl, rfl⟩

/-- C1 witness, Scenario A: the entity at (0.999, 0.5) with velocity
(0.01, 0) in the unit-square bound ends the tick with its x-velocity negated,
its x-position clamped to 1, and its position inside the bound. -/
theorem reflect_scenarioA :
    (updateDotPosition dotA boundsA cfgBase).velocity.1 = -(1/100) ∧
    (updateDotPosition dotA boundsA cfgBase).position.1 = 1 ∧
    ((0 : ℚ) ≤ (updateDotPosition dotA boundsA cfgBase).position.1 ∧
      (updateDotPosition dotA boundsA cfgBase).position.1 ≤ 1) := by
  refine ⟨?_, ?_, ?_⟩
  · norm_num [updateDotPosition, dotA, boundsA]
  · norm_num [updateDotPosition, dotA, boundsA, min_def, max_def]
  · exact (reflect_position_velocity dotA boundsA cfgBase (by norm_num [boundsA])
      (by norm_num [boundsA])).1

theorem setDot_trailData (b : DotDataBuffer) (i : ℕ) (e : MovingDot) (r : ℕ)
    (hr : r < b.maxTrailLength * 2) :
    (b.setDot i e).trailData (i * b.maxTrailLength * 2 + r) =
      if r / 2 < e.trail.length then
        (if r % 2 = 0 then (e.trail.getD (r / 2) (0, 0)).1 else (e.trail.getD (r / 2) (0, 0)).2)
      else 0 := by
  dsimp only [DotDataBuffer.setDot]
  rw [if_pos (by omega), Nat.add_sub_cancel_left]

theorem setDot_trailPair (b : DotDataBuffer) (i : ℕ) (e : MovingDot) (j : ℕ)
    (hj : j < b.maxTrailLength) :
    ((b.setDot i e).trailData (i * b.maxTrailLength * 2 + j * 2),
      (b.setDot i e).trailData (i * b.maxTrailLength * 2 + j * 2 + 1)) =
      e.trail.getD j (0, 0) := by
  have ha := setDot_trailData b i e (j * 2) (by omega)
  have hb0 := setDot_trailData b i e (j * 2 + 1) (by omega)
  rw [(by omega : i * b.maxTrailLength * 2 + j * 2 + 1 =
    i * b.maxTrailLength * 2 + (j * 2 + 1)), ha, hb0,
    (by omega : j * 2 / 2 = j), (by omega : (j * 2 + 1) / 2 = j),
    (by omega : j * 2 % 2 = 0), (by omega : (j * 2 + 1) % 2 = 1)]
  by_cases hL : j < e.trail.length
  · simp [hL]
  · rw [List.getD_eq_default _ _ (by omega)]
    simp [hL]

theorem ite_decide_eq_one (P : Prop) [Decidable P] :
    (if decide P = true then (1 : ℕ) else 0) = 1 ↔ P := by
  by_cases h : P <;> simp [h]

/-- C2: after the visibility-mask computation with a non-negative margin, the
mask bit of each active row is 1 exactly when that row's position lies inside
the margin-expanded rectangle with inclusive bounds, and the returned visible
count equals the number of active rows whose mask bit is 1. -/
theorem updateVisibilityMask_correct (b : DotDataBuffer) (vb : ViewportBounds) (m : ℚ)
    (hm : 0 ≤ m) :
    (∀ i < b.count,
      ((b.updateVisibilityMask vb m).1.visibilityMask i = 1 ↔
        (vb.minLng - m ≤ b.data (i * 8) ∧ b.data (i * 8) ≤ vb.maxLng + m ∧
          vb.minLat - m ≤ b.data (i * 8 + 1) ∧ b.data (i * 8 + 1) ≤ vb.maxLat + m))) ∧
    (b.updateVisibilityMask vb m).2 =
      ((List.range b.count).filter
        (fun i => (b.updateVisibilityMask vb m).1.visibilityMask i == 1)).length := by
  have hmask : ∀ i, i < b.count →
      (b.updateVisibilityMask vb m).1.visibilityMask i =
        (if b.rowInRect (vb.minLng - m) (vb.maxLng + m) (vb.minLat - m) (vb.maxLat + m) i
          then 1 else 0) := by
    intro i hi
    dsimp only [DotDataBuffer.updateVisibilityMask]
    rw [if_pos hi]
  constructor
  · intro i hi
    rw [hmask i hi]
    exact ite_decide_eq_one _
  · show countLoop _ b.count = _
    rw [countLoop_eq_filter]
    congr 1
    apply List.filter_congr
    intro x hx
    rw [hmask x (List.mem_range.1 hx)]
    cases hq : b.rowInRect (vb.minLng - m) (vb.maxLng + m) (vb.minLat - m) (vb.maxLat + m) x <;>
      simp [hq]

/-- C2 witness: in the concrete buffer `bufW` with viewport `vbW` and margin
0, the mask bit of row 0 is set exactly as the inclusion test says. -/
theorem updateVisibilityMask_instance :
    (bufW.updateVisibilityMask vbW 0).1.visibilityMask 0 = 1 ↔
      (vbW.minLng - 0 ≤ bufW.data (0 * 8) ∧ bufW.data (0 * 8) ≤ vbW.maxLng + 0 ∧
        vbW.minLat - 0 ≤ bufW.data (0 * 8 + 1) ∧ bufW.data (0 * 8 + 1) ≤ vbW.maxLat + 0) :=
  (updateVisibilityMask_correct bufW vbW 0 le_rfl).1 0 (by decide)

/-- C3: each visible-only extraction is exactly the concatenation, in row
order, of the visible active rows' [lng, lat, 0] / [r, g, b, 255] / [size]
entries, so its length is 3 / 4 / 1 times the number of set mask bits among
the active rows; with the data model's integral 0..255 colour channels the
extracted colour bytes equal the stored channel values. -/
theorem visible_extraction_correct (b : DotDataBuffer) (hc : validColors b) :
    b.getVisiblePositions =
      (visibleIndices b).flatMap (fun i => [b.data (i * 8), b.data (i * 8 + 1), 0]) ∧
    b.getVisiblePositions.length = 3 * visibleSetBits b ∧
    b.getVisibleColors =
      (visibleIndices b).flatMap (fun i => [jsToUint8 (b.data (i * 8 + 4)),
        jsToUint8 (b.data (i * 8 + 5)), jsToUint8 (b.data (i * 8 + 6)), 255]) ∧
    b.getVisibleColors.length = 4 * visibleSetBits b ∧
    (∀ i ∈ visibleIndices b,
      (jsToUint8 (b.data (i * 8 + 4)) : ℚ) = b.data (i * 8 + 4) ∧
      (jsToUint8 (b.data (i * 8 + 5)) : ℚ) = b.data (i * 8 + 5) ∧
      (jsToUint8 (b.data (i * 8 + 6)) : ℚ) = b.data (i * 8 + 6)) ∧
    b.getVisibleSizes = (visibleIndices b).flatMap (fun i => [b.data (i * 8 + 7)]) ∧
    b.getVisibleSizes.length = 1 * visibleSetBits b := by
  have hpos : b.getVisiblePositions =
      (visibleIndices b).flatMap (fun i => [b.data (i * 8), b.data (i * 8 + 1), 0]) :=
    collectLoop_eq_filter _ _ _
  have hcol : b.getVisibleColors =
      (visibleIndices b).flatMap (fun i => [jsToUint8 (b.data (i * 8 + 4)),
        jsToUint8 (b.data (i * 8 + 5)), jsToUint8 (b.data (i * 8 + 6)), 255]) :=
    collectLoop_eq_filter _ _ _
  have hsiz : b.getVisibleSizes = (visibleIndices b).flatMap (fun i => [b.data (i * 8 + 7)]) :=
    collectLoop_eq_filter _ _ _
  refine ⟨hpos, ?_, hcol, ?_, ?_, hsiz, ?_⟩
  · rw [hpos]
    exact flatMap_const_length _ _ 3 (fun i => rfl)
  · rw [hcol]
    exact flatMap_const_length _ _ 4 (fun i => rfl)
  · intro i hi
    have hlt : i < b.count := List.mem_range.1 (List.mem_of_mem_filter hi)
    obtain ⟨r, g, bl, hr, hg, hbl, er, eg, ebl⟩ := hc i hlt
    rw [er, eg, ebl, jsToUint8_natCast r hr, jsToUint8_natCast g hg, jsToUint8_natCast bl hbl]
    exact ⟨rfl, rfl, rfl⟩
  · rw [hsiz]
    exact flatMap_const_length _ _ 1 (fun i => rfl)

/-- C3 witness: on the concrete buffer `bufW` (one visible row among two),
the visible-positions extraction has length 3 times the set-bit count. -/
theorem visible_extraction_instance :
    bufW.getVisiblePositions.length = 3 * visibleSetBits bufW ∧
    bufW.getVisibleColors.length = 4 * visibleSetBits bufW :=
  ⟨(visible_extraction_correct bufW
      (fun i _ => ⟨1, 1, 1, by norm_num, by norm_num, by norm_num, by norm_num [bufW],
        by norm_num [bufW], by norm_num [bufW]⟩)).2.1,
    (visible_extraction_correct bufW
      (fun i _ => ⟨1, 1, 1, by norm_num, by norm_num, by norm_num, by norm_num [bufW],
        by norm_num [bufW], by norm_num [bufW]⟩)).2.2.2.1⟩

/-- C4: reading row i immediately after writing entity e there reproduces e's
position, velocity, colour and size exactly, and reproduces e's trail in
order except that points equal to the (0, 0) zero-padding sentinel are
dropped. -/
theorem setDot_getDot_roundtrip (b : DotDataBuffer) (i : ℕ) (e : MovingDot)
    (hi : i < b.maxDots) (ht : e.trail.length ≤ b.maxTrailLength) :
    ((b.setDot i e).getDot i).position = e.position ∧
    ((b.setDot i e).getDot i).velocity = e.velocity ∧
    ((b.setDot i e).getDot i).color = e.color ∧
    ((b.setDot i e).getDot i).size = e.size ∧
    ((b.setDot i e).getDot i).trail =
      e.trail.filter (fun p => decide (p ≠ ((0 : ℚ), (0 : ℚ)))) := by
  have hd : ∀ k, k < 8 → (b.setDot i e).data (i * 8 + k) =
      [e.position.1, e.position.2, e.velocity.1, e.velocity.2,
        e.color.1, e.color.2.1, e.color.2.2, e.size].getD k 0 :=
    fun k hk => writeFields_in b.data (i * 8) _ k hk
  refine ⟨?_, ?_, ?_, ?_, ?_⟩
  · exact Prod.ext_iff.2 ⟨hd 0 (by norm_num), hd 1 (by norm_num)⟩
  · exact Prod.ext_iff.2 ⟨hd 2 (by norm_num), hd 3 (by norm_num)⟩
  · exact Prod.ext_iff.2 ⟨hd 4 (by norm_num), Prod.ext_iff.2 ⟨hd 5 (by norm_num),
      hd 6 (by norm_num)⟩⟩
  · exact hd 7 (by norm_num)
  · show collectLoop
        (fun j => (b.setDot i e).trailData (i * b.maxTrailLength * 2 + j * 2) != 0 ||
          (b.setDot i e).trailData (i * b.maxTrailLength * 2 + j * 2 + 1) != 0)
        (fun j => [((b.setDot i e).trailData (i * b.maxTrailLength * 2 + j * 2),
          (b.setDot i e).trailData (i * b.maxTrailLength * 2 + j * 2 + 1))])
        b.maxTrailLength =
      e.trail.filter (fun p => decide (p ≠ ((0 : ℚ), (0 : ℚ))))
    have hcong := collectLoop_congr
      (fun j => (b.setDot i e).trailData (i * b.maxTrailLength * 2 + j * 2) != 0 ||
        (b.setDot i e).trailData (i * b.maxTrailLength * 2 + j * 2 + 1) != 0)
      (fun j => decide (e.trail.getD j (0, 0) ≠ ((0 : ℚ), (0 : ℚ))))
      (fun j => [((b.setDot i e).trailData (i * b.maxTrailLength * 2 + j * 2),
        (b.setDot i e).trailData (i * b.maxTrailLength * 2 + j * 2 + 1))])
      (fun j => [e.trail.getD j (0, 0)])
      b.maxTrailLength
      (fun j hj => by
        dsimp only
        rw [← setDot_trailPair b i e j hj]
        exact pair_ne_bool ((b.setDot i e).trailData (i * b.maxTrailLength * 2 + j * 2),
          (b.setDot i e).trailData (i * b.maxTrailLength * 2 + j * 2 + 1)))
      (fun j hj => by dsimp only; rw [setDot_trailPair b i e j hj])
    rw [hcong]
    have e1 := collectLoop_eq_filter
      (fun j => decide (e.trail.getD j (0, 0) ≠ ((0 : ℚ), (0 : ℚ))))
      (fun j => [e.trail.getD j (0, 0)]) b.maxTrailLength
    rw [e1]
    have e2 : ((List.range b.maxTrailLength).filter
          (fun j => decide (e.trail.getD j (0, 0) ≠ ((0 : ℚ), (0 : ℚ))))).flatMap
          (fun j => [e.trail.getD j (0, 0)]) =
        ((List.range b.maxTrailLength).filter
          (fun j => decide (e.trail.getD j (0, 0) ≠ ((0 : ℚ), (0 : ℚ))))).map
          (fun j => e.trail.getD j (0, 0)) :=
      flatMap_singleton_map _ _
    rw [e2]
    have e3 : ((List.range b.maxTrailLength).filter
          (fun j => decide (e.trail.getD j (0, 0) ≠ ((0 : ℚ), (0 : ℚ))))).map
          (fun j => e.trail.getD j (0, 0)) =
        ((List.range b.maxTrailLength).map (fun j => e.trail.getD j (0, 0))).filter
          (fun p => decide (p ≠ ((0 : ℚ), (0 : ℚ)))) :=
      map_filter_comm (fun j => e.trail.getD j (0, 0))
        (fun p => decide (p ≠ ((0 : ℚ), (0 : ℚ)))) _
    rw [e3, range_map_getD_pad e.trail ((0 : ℚ), (0 : ℚ)) b.maxTrailLength ht,
      List.filter_append, filter_replicate_none _ _ _ (by simp), List.append_nil]

/-- C4 witness: writing the concrete entity `dotE` into row 0 of `bufW` and
reading it back reproduces its position and its trail (no point of which is
the sentinel). -/
theorem setDot_getDot_instance :
    ((bufW.setDot 0 dotE).getDot 0).position = dotE.position ∧
    ((bufW.setDot 0 dotE).getDot 0).trail =
      dotE.trail.filter (fun p => decide (p ≠ ((0 : ℚ), (0 : ℚ)))) :=
  ⟨(setDot_getDot_roundtrip bufW 0 dotE (by decide) (by decide)).1,
    (setDot_getDot_roundtrip bufW 0 dotE (by decide) (by decide)).2.2.2.2⟩

theorem sliceLast_length (l : List α) (k : ℕ) (hk : k ≠ 0) :
    (sliceLast l k).length = min l.length k := by
  unfold sliceLast
  rw [if_neg hk, List.length_drop]
  omega

theorem updateDotPosition_trail_length_on (d : MovingDot) (bounds : ViewportBounds)
    (config : TestConfig) (hK : config.trailLength ≠ 0) (he : config.enableTrails = true) :
    (updateDotPosition d bounds config).trail.length =
      min (d.trail.length + 1) config.trailLength := by
  dsimp only [updateDotPosition]
  rw [he, if_pos rfl, sliceLast_length _ _ hK, List.length_append, List.length_cons,
    List.length_nil]

theorem updateDotPosition_trail_length_off (d : MovingDot) (bounds : ViewportBounds)
    (config : TestConfig) (he : config.enableTrails = false) :
    (updateDotPosition d bounds config).trail.length = 1 := by
  dsimp only [updateDotPosition]
  rw [he, if_neg (by simp)]
  rfl

/-- C5: starting from a freshly generated entity (whose trail is seeded with
its single initial position) and a positive configured trail length, the
trail length never exceeds trailLength after any number of ticks, and when
trails are enabled it equals min(t + 1, trailLength) after t ticks. -/
theorem trail_length_invariant (bounds : ViewportBounds) (config : TestConfig) (d : MovingDot)
    (t : ℕ) (hK : 1 ≤ config.trailLength) (h0 : d.trail.length = 1) :
    (iterTicks bounds config t d).trail.length ≤ config.trailLength ∧
    (config.enableTrails = true →
      (iterTicks bounds config t d).trail.length = min (t + 1) config.trailLength) := by
  induction t with
  | zero =>
      constructor
      · show d.trail.length ≤ _
        omega
      · intro _
        show d.trail.length = _
        omega
  | succ t ih =>
      cases he : config.enableTrails with
      | false =>
          constructor
          · show (updateDotPosition (iterTicks bounds config t d) bounds config).trail.length ≤ _
            rw [updateDotPosition_trail_length_off _ _ _ he]
            omega
          · intro hcontra
            simp at hcontra
      | true =>
          have hlen := ih.2 he
          constructor
          · show (updateDotPosition (iterTicks bounds config t d) bounds config).trail.length ≤ _
            rw [updateDotPosition_trail_length_on _ _ _ (by omega) he, hlen]
            omega
          · intro _
            show (updateDotPosition (iterTicks bounds config t d) bounds config).trail.length = _
            rw [updateDotPosition_trail_length_on _ _ _ (by omega) he, hlen]
            omega

/-- C5 witness: the Scenario A entity ticked twice under the default
configuration keeps its trail within the configured length, and the enabled
trail grows to min(2 + 1, 20). -/
theorem trail_length_instance :
    (iterTicks boundsA cfgBase 2 dotA).trail.length ≤ cfgBase.trailLength ∧
    (cfgBase.enableTrails = true →
      (iterTicks boundsA cfgBase 2 dotA).trail.length = min (2 + 1) cfgBase.trailLength) :=
  trail_length_invariant boundsA cfgBase dotA 2 (by decide) (by decide)

theorem collectLoop_three (p : ℕ → Bool) (g : ℕ → List (ℚ × ℚ)) :
    collectLoop p g 3 =
      (([] ++ (if p 0 then g 0 else [])) ++ (if p 1 then g 1 else [])) ++
        (if p 2 then g 2 else []) := rfl


theorem updateDotPosition_trail_shift (b : DotDataBuffer) (index : ℕ)
    (bounds : ViewportBounds) (ms : ℚ) (i : ℕ) (h1 : 1 ≤ i) (h2 : i < b.maxTrailLength) :
    (b.updateDotPosition index bounds ms).trailData
        (index * b.maxTrailLength * 2 + i * 2) =
      b.trailData (index * b.maxTrailLength * 2 + (i - 1) * 2) ∧
    (b.updateDotPosition index bounds ms).trailData
        (index * b.maxTrailLength * 2 + i * 2 + 1) =
      b.trailData (index * b.maxTrailLength * 2 + (i - 1) * 2 + 1) := by
  dsimp only [DotDataBuffer.updateDotPosition]
  constructor
  · rw [if_neg (by omega), if_neg (by omega), if_pos ⟨by omega, by omega⟩]
    congr 1
    omega
  · rw [if_neg (by omega), if_neg (by omega), if_pos ⟨by omega, by omega⟩]
    congr 1
    omega

theorem updateDotPosition_trail_head (b : DotDataBuffer) (index : ℕ)
    (bounds : ViewportBounds) (ms : ℚ) :
    (b.updateDotPosition index bounds ms).trailData (index * b.maxTrailLength * 2) =
      (b.updateDotPosition index bounds ms).data (index * 8) ∧
    (b.updateDotPosition index bounds ms).trailData (index * b.maxTrailLength * 2 + 1) =
      (b.updateDotPosition index bounds ms).data (index * 8 + 1) := by
  dsimp only [DotDataBuffer.updateDotPosition]
  constructor
  · rw [if_pos rfl]
    refine Eq.symm (Eq.trans (writeFields_in b.data (index * 8) _ 0 ?_) ?_)
    · norm_num
    · rfl
  · rw [if_neg (by omega), if_pos rfl]
    refine Eq.symm (Eq.trans (writeFields_in b.data (index * 8) _ 1 ?_) ?_)
    · norm_num
    · rfl

theorem updateDotPosition_data_noBounce (b : DotDataBuffer) (index : ℕ)
    (bounds : ViewportBounds) (ms : ℚ)
    (hx : ¬(b.data (index * 8) + b.data (index * 8 + 2) ≤ bounds.minLng ∨
      bounds.maxLng ≤ b.data (index * 8) + b.data (index * 8 + 2)))
    (hy : ¬(b.data (index * 8 + 1) + b.data (index * 8 + 3) ≤ bounds.minLat ∨
      bounds.maxLat ≤ b.data (index * 8 + 1) + b.data (index * 8 + 3))) :
    (b.updateDotPosition index bounds ms).data (index * 8) =
      b.data (index * 8) + b.data (index * 8 + 2) ∧
    (b.updateDotPosition index bounds ms).data (index * 8 + 1) =
      b.data (index * 8 + 1) + b.data (index * 8 + 3) ∧
    (b.updateDotPosition index bounds ms).data (index * 8 + 2) = b.data (index * 8 + 2) ∧
    (b.updateDotPosition index bounds ms).data (index * 8 + 3) = b.data (index * 8 + 3) := by
  dsimp only [DotDataBuffer.updateDotPosition]
  refine ⟨?_, ?_, ?_, ?_⟩
  · refine Eq.trans (writeFields_in b.data (index * 8) _ 0 ?_) ?_
    · norm_num
    · rw [List.getD_cons_zero, if_neg hx]
  · refine Eq.trans (writeFields_in b.data (index * 8) _ 1 ?_) ?_
    · norm_num
    · show (if _ then _ else _) = _
      rw [if_neg hy]
  · refine Eq.trans (writeFields_in b.data (index * 8) _ 2 ?_) ?_
    · norm_num
    · show (if _ then _ else _) = _
      rw [if_neg hx]
  · refine Eq.trans (writeFields_in b.data (index * 8) _ 3 ?_) ?_
    · norm_num
    · show (if _ then _ else _) = _
      rw [if_neg hy]

theorem scenario_step (b : DotDataBuffer) (x : ℚ) (hmt : b.maxTrailLength = 3)
    (hd0 : b.data 0 = x) (hd1 : b.data 1 = 50) (hd2 : b.data 2 = 1) (hd3 : b.data 3 = 0)
    (hx0 : 0 < x + 1) (hx1 : x + 1 < 100) :
    (b.updateDotPosition 0 boundsB 1).data 0 = x + 1 ∧
    (b.updateDotPosition 0 boundsB 1).data 1 = 50 ∧
    (b.updateDotPosition 0 boundsB 1).data 2 = 1 ∧
    (b.updateDotPosition 0 boundsB 1).data 3 = 0 ∧
    (b.updateDotPosition 0 boundsB 1).trailData 0 = x + 1 ∧
    (b.updateDotPosition 0 boundsB 1).trailData 1 = 50 ∧
    (b.updateDotPosition 0 boundsB 1).trailData 2 = b.trailData 0 ∧
    (b.updateDotPosition 0 boundsB 1).trailData 3 = b.trailData 1 ∧
    (b.updateDotPosition 0 boundsB 1).trailData 4 = b.trailData 2 ∧
    (b.updateDotPosition 0 boundsB 1).trailData 5 = b.trailData 3 ∧
    (b.updateDotPosition 0 boundsB 1).maxTrailLength = 3 := by
  have hx : ¬(b.data (0 * 8) + b.data (0 * 8 + 2) ≤ boundsB.minLng ∨
      boundsB.maxLng ≤ b.data (0 * 8) + b.data (0 * 8 + 2)) := by
    push_neg
    norm_num [hd0, hd2, boundsB]
    exact ⟨hx0, hx1⟩
  have hy : ¬(b.data (0 * 8 + 1) + b.data (0 * 8 + 3) ≤ boundsB.minLat ∨
      boundsB.maxLat ≤ b.data (0 * 8 + 1) + b.data (0 * 8 + 3)) := by
    push_neg
    norm_num [hd1, hd3, boundsB]
  have hD := updateDotPosition_data_noBounce b 0 boundsB 1 hx hy
  have hH := updateDotPosition_trail_head b 0 boundsB 1
  have hS1 := updateDotPosition_trail_shift b 0 boundsB 1 1 le_rfl (by omega)
  have hS2 := updateDotPosition_trail_shift b 0 boundsB 1 2 (by omega) (by omega)
  rw [hmt] at hH hS1 hS2
  norm_num at hD hH hS1 hS2
  rw [hd0, hd1, hd2, hd3] at hD
  norm_num at hD
  refine ⟨hD.1, hD.2.1, hD.2.2.1, hD.2.2.2, hH.1.trans hD.1, hH.2.trans hD.2.1,
    hS1.1, hS1.2, hS2.1, hS2.2, hmt⟩

theorem getDot_trail_three (b : DotDataBuffer) (hmt : b.maxTrailLength = 3)
    (x0 y0 x1 y1 x2 y2 : ℚ)
    (h0 : b.trailData 0 = x0) (h1 : b.trailData 1 = y0)
    (h2 : b.trailData 2 = x1) (h3 : b.trailData 3 = y1)
    (h4 : b.trailData 4 = x2) (h5 : b.trailData 5 = y2)
    (n0 : x0 ≠ 0) (n1 : x1 ≠ 0) (n2 : x2 ≠ 0) :
    (b.getDot 0).trail = [(x0, y0), (x1, y1), (x2, y2)] := by
  dsimp only [DotDataBuffer.getDot]
  rw [hmt, collectLoop_three]
  norm_num [h0, h1, h2, h3, h4, h5, n0, n1, n2]

/-- C6: the buffer advance updates the advanced row's trail by moving every
pair one slot toward the tail (so the pair formerly in the last slot is
discarded) and writes the newly computed position into the head pair;
consequently, with a trail ring of length 3 and trails enabled, after 5 ticks
the stored trail holds exactly the 3 most recent positions, most-recent
first. -/
theorem advance_trail_shift :
    (∀ (b : DotDataBuffer) (index : ℕ) (bounds : ViewportBounds) (ms : ℚ) (i : ℕ),
        1 ≤ i → i < b.maxTrailLength →
        (b.updateDotPosition index bounds ms).trailData
            (index * b.maxTrailLength * 2 + i * 2) =
          b.trailData (index * b.maxTrailLength * 2 + (i - 1) * 2) ∧
        (b.updateDotPosition index bounds ms).trailData
            (index * b.maxTrailLength * 2 + i * 2 + 1) =
          b.trailData (index * b.maxTrailLength * 2 + (i - 1) * 2 + 1)) ∧
    (∀ (b : DotDataBuffer) (index : ℕ) (bounds : ViewportBounds) (ms : ℚ),
        (b.updateDotPosition index bounds ms).trailData (index * b.maxTrailLength * 2) =
          (b.updateDotPosition index bounds ms).data (index * 8) ∧
        (b.updateDotPosition index bounds ms).trailData (index * b.maxTrailLength * 2 + 1) =
          (b.updateDotPosition index bounds ms).data (index * 8 + 1)) ∧
    ((tickBuf boundsB 0 1 5 bufB0).getDot 0).trail = [(55, 50), (54, 50), (53, 50)] := by
  refine ⟨fun b index bounds ms i h1 h2 =>
      updateDotPosition_trail_shift b index bounds ms i h1 h2,
    fun b index bounds ms => updateDotPosition_trail_head b index bounds ms, ?_⟩
  have hd0 : bufB0.data 0 = 50 := rfl
  have hd1 : bufB0.data 1 = 50 := rfl
  have hd2 : bufB0.data 2 = 1 := rfl
  have hd3 : bufB0.data 3 = 0 := rfl
  obtain ⟨a0, a1, a2, a3, a4, a5, a6, a7, a8, a9, a10⟩ :=
    scenario_step bufB0 50 rfl hd0 hd1 hd2 hd3 (by norm_num) (by norm_num)
  obtain ⟨b0, b1, b2, b3, b4, b5, b6, b7, b8, b9, b10⟩ :=
    scenario_step _ (50 + 1) a10 a0 a1 a2 a3 (by norm_num) (by norm_num)
  obtain ⟨c0, c1, c2, c3, c4, c5, c6, c7, c8, c9, c10⟩ :=
    scenario_step _ (50 + 1 + 1) b10 b0 b1 b2 b3 (by norm_num) (by norm_num)
  obtain ⟨e0, e1, e2, e3, e4, e5, e6, e7, e8, e9, e10⟩ :=
    scenario_step _ (50 + 1 + 1 + 1) c10 c0 c1 c2 c3 (by norm_num) (by norm_num)
  obtain ⟨f0, f1, f2, f3, f4, f5, f6, f7, f8, f9, f10⟩ :=
    scenario_step _ (50 + 1 + 1 + 1 + 1) e10 e0 e1 e2 e3 (by norm_num) (by norm_num)
  have h5 : tickBuf boundsB 0 1 5 bufB0 =
      ((((bufB0.updateDotPosition 0 boundsB 1).updateDotPosition 0 boundsB
        1).updateDotPosition 0 boundsB 1).updateDotPosition 0 boundsB
        1).updateDotPosition 0 boundsB 1 := rfl
  rw [h5]
  exact getDot_trail_three _ f10 55 50 54 50 53 50
    (f4.trans (by norm_num)) f5
    ((f6.trans e4).trans (by norm_num)) (f7.trans e5)
    ((f8.trans (e6.trans c4)).trans (by norm_num)) (f9.trans (e7.trans c5))
    (by norm_num) (by norm_num) (by norm_num)

theorem countLoop_one (p : ℕ → Bool) : countLoop p 1 = if p 0 then 1 else 0 :=
  Nat.zero_add _

theorem boundsChangedCheck_self (vb : ViewportBounds) :
    boundsChangedCheck vb (some vb) false = false := by
  dsimp only [boundsChangedCheck]
  norm_num

theorem legacyCulling_eval (dots vDots : List MovingDot) (dBuf : Option DotDataBuffer)
    (mode run : Bool) (cfg : TestConfig) (bnds : ViewportBounds)
    (lastVB : Option ViewportBounds) (tot vis : ℕ) (vb : ViewportBounds)
    (hmode : mode = false ∨ dBuf = none) :
    storeUpdateViewportCulling ⟨dots, vDots, dBuf, mode, run, cfg, bnds, lastVB, tot, vis⟩ vb =
      (if (updateViewportCullingFn dots vb lastVB cfg false).2 then
        ⟨dots, (updateViewportCullingFn dots vb lastVB cfg false).1, dBuf, mode, run, cfg,
          bnds, some vb, tot, (updateViewportCullingFn dots vb lastVB cfg false).1.length⟩
      else ⟨dots, vDots, dBuf, mode, run, cfg, bnds, lastVB, tot, vis⟩) := by
  rcases hmode with rfl | rfl
  · cases dBuf <;> rfl
  · cases mode <;> rfl

theorem highPerfCulling_eval (dots vDots : List MovingDot) (buf : DotDataBuffer)
    (run : Bool) (cfg : TestConfig) (bnds : ViewportBounds)
    (lastVB : Option ViewportBounds) (tot vis : ℕ) (vb : ViewportBounds) :
    storeUpdateViewportCulling
        ⟨dots, vDots, some buf, true, run, cfg, bnds, lastVB, tot, vis⟩ vb =
      ⟨dots, vDots, some (buf.updateVisibilityMask vb cfg.cullingBuffer).1, true, run, cfg,
        bnds, some vb, tot, (buf.updateVisibilityMask vb cfg.cullingBuffer).2⟩ := rfl

/-- C7 counterexample: in high-performance mode, a non-forced culling update
whose viewport differs from the last computation's bounds by at most 0.001 on
every edge still recomputes: the visible count and the stored last-viewport
bounds both change. -/
theorem culling_epsilon_cex :
    stateC7.config.enableViewportCulling = true ∧
    stateC7.lastViewportBounds = some lastC7 ∧
    |vbC7.minLng - lastC7.minLng| ≤ 1/1000 ∧ |vbC7.maxLng - lastC7.maxLng| ≤ 1/1000 ∧
    |vbC7.minLat - lastC7.minLat| ≤ 1/1000 ∧ |vbC7.maxLat - lastC7.maxLat| ≤ 1/1000 ∧
    (storeUpdateViewportCulling stateC7 vbC7).visibleDotsCount ≠ stateC7.visibleDotsCount ∧
    (storeUpdateViewportCulling stateC7 vbC7).lastViewportBounds ≠
      stateC7.lastViewportBounds := by
  have hcount : (storeUpdateViewportCulling stateC7 vbC7).visibleDotsCount =
      countLoop (bufC7.rowInRect (vbC7.minLng - 0) (vbC7.maxLng + 0) (vbC7.minLat - 0)
        (vbC7.maxLat + 0)) 1 := rfl
  have hp : bufC7.rowInRect (vbC7.minLng - 0) (vbC7.maxLng + 0) (vbC7.minLat - 0)
      (vbC7.maxLat + 0) 0 = true := by
    dsimp only [DotDataBuffer.rowInRect, bufC7, vbC7]
    norm_num
  have hlast : (storeUpdateViewportCulling stateC7 vbC7).lastViewportBounds = some vbC7 := rfl
  refine ⟨rfl, rfl, by norm_num [vbC7, lastC7, abs_le], by norm_num [vbC7, lastC7, abs_le],
    by norm_num [vbC7, lastC7, abs_le], by norm_num [vbC7, lastC7, abs_le], ?_, ?_⟩
  · rw [hcount, countLoop_one, hp]
    norm_num [stateC7, stateBase]
  · rw [hlast]
    show some vbC7 ≠ some lastC7
    intro h
    have h2 := congrArg ViewportBounds.maxLng (Option.some.inj h)
    norm_num [vbC7, lastC7] at h2

theorem updateVisibilityMask_idem (b : DotDataBuffer) (vb : ViewportBounds) (m : ℚ) :
    (b.updateVisibilityMask vb m).1.updateVisibilityMask vb m =
      ((b.updateVisibilityMask vb m).1, (b.updateVisibilityMask vb m).2) := by
  dsimp only [DotDataBuffer.updateVisibilityMask, DotDataBuffer.rowInRect]
  refine Prod.ext_iff.2 ⟨?_, rfl⟩
  simp only [DotDataBuffer.mk.injEq, eq_self_iff_true, true_and, and_true]
  funext i
  by_cases hi : i < b.count
  · simp only [if_pos hi]
  · simp only [if_neg hi]

/-- C7 amended: in legacy (non-high-performance) mode, with culling enabled
and previous bounds stored, a non-forced culling update whose viewport
differs by at most 0.001 on every edge leaves the store state unchanged; and
for every state (either mode), recomputing twice with the same viewport
leaves the second update a no-op on mask, visible count and stored bounds. -/
theorem culling_update_amended :
    (∀ (s : StoreState) (vb last : ViewportBounds),
        (s.useHighPerformanceMode = false ∨ s.dotBuffer = none) →
        s.config.enableViewportCulling = true →
        s.lastViewportBounds = some last →
        |vb.minLng - last.minLng| ≤ 1/1000 → |vb.maxLng - last.maxLng| ≤ 1/1000 →
        |vb.minLat - last.minLat| ≤ 1/1000 → |vb.maxLat - last.maxLat| ≤ 1/1000 →
        storeUpdateViewportCulling s vb = s) ∧
    (∀ (s : StoreState) (vb : ViewportBounds),
        storeUpdateViewportCulling (storeUpdateViewportCulling s vb) vb =
          storeUpdateViewportCulling s vb) := by
  constructor
  · intro s vb last hmode hcull hlast h1 h2 h3 h4
    obtain ⟨dots, vDots, dBuf, mode, run, cfg, bnds, lastVB, tot, vis⟩ := s
    dsimp only at hmode hcull hlast
    subst hlast
    have hno : boundsChangedCheck vb (some last) false = false := by
      dsimp only [boundsChangedCheck]
      rw [decide_eq_false (not_lt.2 h1), decide_eq_false (not_lt.2 h2),
        decide_eq_false (not_lt.2 h3), decide_eq_false (not_lt.2 h4)]
      rfl
    have hr : updateViewportCullingFn dots vb (some last) cfg false = ([], false) := by
      unfold updateViewportCullingFn
      rw [hcull, hno]
      rfl
    rw [legacyCulling_eval dots vDots dBuf mode run cfg bnds (some last) tot vis vb hmode, hr]
    rfl
  · intro s vb
    obtain ⟨dots, vDots, dBuf, mode, run, cfg, bnds, lastVB, tot, vis⟩ := s
    by_cases hhp : mode = true ∧ ∃ buf, dBuf = some buf
    · obtain ⟨rfl, buf, rfl⟩ := hhp
      rw [highPerfCulling_eval, highPerfCulling_eval,
        updateVisibilityMask_idem buf vb cfg.cullingBuffer]
    · have hmode : mode = false ∨ dBuf = none := by
        cases mode
        · exact Or.inl rfl
        · cases hdb : dBuf
          · exact Or.inr rfl
          · exact absurd ⟨rfl, _, hdb⟩ hhp
      have h1 := legacyCulling_eval dots vDots dBuf mode run cfg bnds lastVB tot vis vb hmode
      cases hT : (updateViewportCullingFn dots vb lastVB cfg false).2 with
      | false =>
          rw [h1, hT]
          show storeUpdateViewportCulling
              ⟨dots, vDots, dBuf, mode, run, cfg, bnds, lastVB, tot, vis⟩ vb = _
          rw [h1, hT]
      | true =>
          have hcul : cfg.enableViewportCulling = true := by
            cases hq : cfg.enableViewportCulling
            · have hr0 : updateViewportCullingFn dots vb lastVB cfg false = (dots, false) := by
                unfold updateViewportCullingFn
                rw [hq]
                rfl
              rw [hr0] at hT
              simp at hT
            · rfl
          rw [h1, hT]
          show storeUpdateViewportCulling
              ⟨dots, (updateViewportCullingFn dots vb lastVB cfg false).1, dBuf, mode, run,
                cfg, bnds, some vb, tot,
                (updateViewportCullingFn dots vb lastVB cfg false).1.length⟩ vb = _
          rw [legacyCulling_eval dots _ dBuf mode run cfg bnds (some vb) tot _ vb hmode]
          have hr2 : updateViewportCullingFn dots vb (some vb) cfg false = ([], false) := by
            unfold updateViewportCullingFn
            rw [hcul, boundsChangedCheck_self]
            rfl
          rw [hr2]
          rfl

theorem setDotsLoop_count (gen : ℕ → MovingDot) (b : DotDataBuffer) (n : ℕ) :
    (setDotsLoop gen b n).count = b.count := by
  induction n with
  | zero => rfl
  | succ n ih => exact ih

theorem setDotsLoop_mask (gen : ℕ → MovingDot) (b : DotDataBuffer) (n : ℕ) :
    (setDotsLoop gen b n).visibilityMask = b.visibilityMask := by
  induction n with
  | zero => rfl
  | succ n ih => exact ih

/-- C8 counterexample: with a configuration violating the documented
constraints (zero trail length, sizeMin above sizeMax), startTest still
transitions the store to Running and generates the full population — nothing
is rejected. -/
theorem start_validation_cex :
    cfgC8.trailLength = 0 ∧ cfgC8.dotSizeMax < cfgC8.dotSizeMin ∧
    (startTest (fun _ => dotB) stateC8).isRunning = true ∧
    (startTest (fun _ => dotB) stateC8).dots.length = 5 := by
  refine ⟨rfl, by norm_num [cfgC8, cfgBase], rfl, ?_⟩
  show ((List.range 5).map (fun _ => dotB)).length = 5
  rw [List.length_map, List.length_range]

/-- C8 amended: the store performs no configuration validation at all:
startTest always transitions to Running and records the configured
population size, for every configuration, valid or not. -/
theorem start_no_validation (gen : ℕ → MovingDot) (s : StoreState) :
    (startTest gen s).isRunning = true ∧ (startTest gen s).totalDots = s.config.dotCount := by
  dsimp only [startTest]
  cases hhp : s.config.enableAdaptivePerformance &&
      decide (s.config.highPerformanceThreshold ≤ s.config.dotCount) with
  | false =>
      refine ⟨rfl, ?_⟩
      show ((List.range s.config.dotCount).map gen).length = s.config.dotCount
      rw [List.length_map, List.length_range]
  | true =>
      exact ⟨rfl, (setDotsLoop_count gen _ _).trans rfl⟩

/-- C9: right after startTest enters high-performance mode with culling
enabled, before any visibility-mask computation, getBinaryData returns three
empty arrays although the active population is positive: the mask is
zero-initialized at allocation and the visible-only extraction path is taken
whenever culling is enabled. -/
theorem initial_cull_empty_render (gen : ℕ → MovingDot) (s : StoreState)
    (h1 : s.config.enableAdaptivePerformance = true)
    (h2 : s.config.highPerformanceThreshold ≤ s.config.dotCount)
    (h3 : s.config.enableViewportCulling = true)
    (h4 : 0 < s.config.dotCount) :
    getBinaryData (startTest gen s) = ([], [], []) ∧ 0 < (startTest gen s).totalDots := by
  have hcond : (s.config.enableAdaptivePerformance &&
      decide (s.config.highPerformanceThreshold ≤ s.config.dotCount)) = true := by
    rw [h1, decide_eq_true h2]
    rfl
  have hcount : (startBuffer gen s).count = s.config.dotCount :=
    (setDotsLoop_count gen _ _).trans rfl
  have hmask : (startBuffer gen s).visibilityMask = (fun _ => 0) :=
    (setDotsLoop_mask gen _ _).trans rfl
  have hstart : startTest gen s =
      { s with
        isRunning := true, useHighPerformanceMode := true,
        dotBuffer := some (startBuffer gen s),
        totalDots := (startBuffer gen s).count,
        visibleDotsCount := (startBuffer gen s).count } := by
    dsimp only [startTest]
    rw [hcond]
    rfl
  rw [hstart]
  constructor
  · dsimp only [getBinaryData]
    rw [h3]
    have hemptyP : DotDataBuffer.getVisiblePositions (startBuffer gen s) = [] :=
      collectLoop_nil _ _ _ (fun i _ => by rw [hmask]; rfl)
    have hemptyC : DotDataBuffer.getVisibleColors (startBuffer gen s) = [] :=
      collectLoop_nil _ _ _ (fun i _ => by rw [hmask]; rfl)
    have hemptyS : DotDataBuffer.getVisibleSizes (startBuffer gen s) = [] :=
      collectLoop_nil _ _ _ (fun i _ => by rw [hmask]; rfl)
    rw [hemptyP, hemptyC, hemptyS]
    rfl
  · show 0 < (startBuffer gen s).count
    rw [hcount]
    exact h4

/-- C9 witness: the concrete high-performance configuration `cfgC9` (adaptive
mode on, population 3 above threshold 2, culling on) renders nothing right
after the run starts although three dots are active. -/
theorem initial_cull_empty_render_instance :
    getBinaryData (startTest (fun _ => dotB) stateC9) = ([], [], []) ∧
    0 < (startTest (fun _ => dotB) stateC9).totalDots :=
  initial_cull_empty_render (fun _ => dotB) stateC9 rfl (by decide) rfl (by decide)
